import Mathlib

/-!
Shallow embedding of the retrieval-augmented SQL generation core of
`backend/vanna_service.py` (class `LocalVannaService`), together with
theorems checking the specification's claims about it.

Modelling conventions:
* Python strings are Lean `String` (a wrapped `List Char`); Python slicing,
  `len`, `in`, `.lower()`, `.strip()`, `.replace()` are modelled character-wise.
* The external collaborators (ChromaDB vector index, OpenAI chat endpoint)
  are modelled as explicit parameters: the outcome of a vector query is an
  `Except` value supplied to the function, and the language model is an
  oracle `String → String → Except String String` mapping the (system, user)
  prompts to either a completion or a failure.  A Python exception escaping a
  collaborator call corresponds to the `Except.error` case.
* Methods of the singleton service become top-level functions taking the
  relevant state (whether the collection initialised, the stored fragments)
  explicitly.
-/

/-- Python `str.lower()` restricted to the character repertoire this service
meets: ASCII letters and the Latin-1 letters (`À`..`Þ` map to `à`..`þ`,
the multiplication sign `×` excepted), which covers every accented character
occurring in the service's marker list and prompts.  Other characters are
unchanged. -/
def pyLowerChar (c : Char) : Char :=
  if 65 ≤ c.toNat ∧ c.toNat ≤ 90 then Char.ofNat (c.toNat + 32)
  else if 0xC0 ≤ c.toNat ∧ c.toNat ≤ 0xDE ∧ c.toNat ≠ 0xD7 then Char.ofNat (c.toNat + 32)
  else c

/-- Python `str.lower()` on a whole string. -/
def pyLower (s : String) : String :=
  String.mk (s.data.map pyLowerChar)

/-- Does `hay` start with `needle`?  (Python `str.startswith`, used to build
substring containment.) -/
def startsWithList : List Char → List Char → Bool
  | _, [] => true
  | [], _ :: _ => false
  | c :: hs, d :: ns => c == d && startsWithList hs ns

/-- Does `hay` contain `needle` as a contiguous run?  (Python `needle in hay`.) -/
def hasSub : List Char → List Char → Bool
  | hay, needle =>
    startsWithList hay needle ||
      (match hay with
       | [] => false
       | _ :: t => hasSub t needle)

/-- Python `needle in hay` for strings: substring containment. -/
def containsSub (hay needle : String) : Bool :=
  hasSub hay.data needle.data

/-- One step of Python `str.replace(old, new)` (all occurrences, left to
right, non-overlapping), with explicit fuel for structural recursion; the
fuel is always called with at least the length of the subject. -/
def replaceAllAux (old new : List Char) : Nat → List Char → List Char
  | 0, s => s
  | _ + 1, [] => []
  | fuel + 1, s@(c :: rest) =>
    if old ≠ [] ∧ startsWithList s old then
      new ++ replaceAllAux old new fuel (s.drop old.length)
    else
      c :: replaceAllAux old new fuel rest

/-- Python `s.replace(old, new)`. -/
def pyReplace (s old new : String) : String :=
  String.mk (replaceAllAux old.data new.data s.data.length s.data)

/-- A whitespace character in Python's sense (ASCII repertoire): the set
`str.strip()` removes and the regex class `\s` accepts. -/
def isPyWs (c : Char) : Bool :=
  c == ' ' || c == '\t' || c == '\n' || c == '\r' || c == '\x0b' || c == '\x0c'

/-- Python `s.strip()`: remove leading and trailing whitespace. -/
def pyStrip (s : String) : String :=
  String.mk (((s.data.dropWhile isPyWs).reverse.dropWhile isPyWs).reverse)

/-- Python `s[:n]` on strings (first `n` characters). -/
def pyTake (s : String) (n : Nat) : String :=
  String.mk (s.data.take n)

/-- The marker list of `LocalVannaService.is_contextual_question`
(`contextual_patterns`, vanna_service.py lines 340-352). -/
def contextual_patterns : List String :=
  ["y cuánt", "y los", "y las", "y el", "y la",
   "mismo", "misma", "igual",
   "pero", "sin embargo",
   "también", "además",
   "anterior", "previo",
   "comparar", "diferencia",
   "primero", "último",
   "resto", "demás", "otros",
   "ahora", "entonces",
   "ese", "esa", "esos", "esas",
   "dicho", "mencionado"]

/-- `LocalVannaService.is_contextual_question` (vanna_service.py lines
338-355): lowercase the question and test whether any marker occurs in it
as a substring. -/
def is_contextual_question (question : String) : Bool :=
  let question_lower := pyLower question
  contextual_patterns.any (fun pattern => containsSub question_lower pattern)

/-- A scalar database value in a result row (integers and strings are what
the service's queries return). -/
inductive Scalar where
  | intV : Int → Scalar
  | strV : String → Scalar
deriving DecidableEq

/-- A single-quote character, written via its code point. -/
def squote : String := "\x27"

/-- Python `repr(scalar)` (string escaping inside the quotes is not needed
for the values this service meets). -/
def Scalar.pyRepr : Scalar → String
  | .intV n => toString n
  | .strV s => squote ++ s ++ squote

/-- Python `str(scalar)`: like `repr` except that a string prints without
quotes. -/
def Scalar.pyStr : Scalar → String
  | .intV n => toString n
  | .strV s => s

/-- A value stored under a dict key: a scalar, or — after the summariser's
relabelling embeds a whole positional row — a tuple of scalars (database
rows nest no deeper than that). -/
inductive Value where
  | sc : Scalar → Value
  | tupV : List Scalar → Value
deriving DecidableEq

/-- Python `repr(value)`; tuples print with parentheses and a trailing
comma when of length one. -/
def Value.pyRepr : Value → String
  | .sc s => s.pyRepr
  | .tupV [v] => "(" ++ v.pyRepr ++ ",)"
  | .tupV vs => "(" ++ String.intercalate ", " (vs.map Scalar.pyRepr) ++ ")"

/-- Python `str(value)`. -/
def Value.pyStr : Value → String
  | .sc s => s.pyStr
  | v => v.pyRepr

/-- A result row as the service receives or relabels it: either positional
(Python tuple/list of scalars) or a named-field mapping (Python dict). -/
inductive Row where
  | tup : List Scalar → Row
  | dict : List (String × Value) → Row
deriving DecidableEq

/-- Python `repr(row)`. -/
def Row.pyRepr : Row → String
  | .tup [v] => "(" ++ v.pyRepr ++ ",)"
  | .tup vs => "(" ++ String.intercalate ", " (vs.map Scalar.pyRepr) ++ ")"
  | .dict kvs =>
      "\x7b" ++
        String.intercalate ", "
          (kvs.map fun kv => squote ++ kv.1 ++ squote ++ ": " ++ kv.2.pyRepr) ++
      "\x7d"

/-- Python `str(list_of_rows)`. -/
def pyReprRowList (rows : List Row) : String :=
  "[" ++ String.intercalate ", " (rows.map Row.pyRepr) ++ "]"

/-- One conversation-history entry, a Python dict read with `.get`:
`question` and `sql` default to `""` when absent, `answer` to `None`. -/
structure Interaction where
  question : String := ""
  sql : String := ""
  answer : Option String := none
deriving DecidableEq

/-- A hit returned by the vector-index query: the stored document text and
the `type` field of its metadata (parallel arrays in the ChromaDB reply). -/
structure Hit where
  document : String
  mtype : String
deriving DecidableEq

/-- `LocalVannaService.get_relevant_context` (vanna_service.py lines
129-156).  `hasCollection` is whether `self.collection` initialised;
`queryResult` is the outcome of `self.collection.query` (`Except.error`
when the index call raises).  Unknown metadata types are skipped, matching
the if/elif chain with no else branch. -/
def get_relevant_context (hasCollection : Bool)
    (queryResult : Except String (List Hit)) : String :=
  if !hasCollection then ""
  else
    match queryResult with
    | .error _ => ""
    | .ok hits =>
      let context_parts := hits.filterMap (fun h =>
        if h.mtype = "ddl" then some ("Table Schema:\n" ++ h.document)
        else if h.mtype = "documentation" then some ("Documentation:\n" ++ h.document)
        else if h.mtype = "question_sql" then some ("Example:\n" ++ h.document)
        else none)
      String.intercalate "\n\n" context_parts

/-- The answer abbreviation of vanna_service.py lines 183-185:
answers longer than 200 characters are cut to 200 characters plus "...". -/
def truncAnswer (answer : String) : String :=
  if answer.length > 200 then pyTake answer 200 ++ "..." else answer

/-- One loop iteration of the conversation-context construction
(vanna_service.py lines 177-186); `i` is the 0-based enumeration index. -/
def renderInteraction (i : Nat) (interaction : Interaction) : String :=
  "\nInteraction " ++ toString (i + 1) ++ ":\n"
  ++ "User asked: " ++ interaction.question ++ "\n"
  ++ "SQL generated: " ++ interaction.sql ++ "\n"
  ++ (match interaction.answer with
      | some a => if a ≠ "" then "Answer summary: " ++ truncAnswer a ++ "\n" else ""
      | none => "")

/-- `history_limit` of vanna_service.py line 176: 7 turns for a contextual
question, otherwise 5. -/
def history_limit (is_contextual : Bool) : Nat :=
  if is_contextual then 7 else 5

/-- The window `conversation_history[-history_limit:]` of line 177. -/
def convWindow (is_contextual : Bool) (conversation_history : List Interaction) :
    List Interaction :=
  conversation_history.drop
    (conversation_history.length - history_limit is_contextual)

/-- The `conversation_context` string of vanna_service.py lines 172-186. -/
def conversationContext (is_contextual : Bool)
    (conversation_history : List Interaction) : String :=
  if conversation_history.isEmpty then ""
  else
    "\n\nPREVIOUS CONVERSATION CONTEXT:\n"
    ++ String.join (((convWindow is_contextual conversation_history).enum).map
        (fun p => renderInteraction p.1 p.2))

/-- The fixed system prompt of `generate_sql` (vanna_service.py lines
189-202). -/
def sqlSystemPromptBase : String :=
  "You are a world-class SQL generation expert for MySQL with conversational memory. Your task is to generate a single, valid MySQL query based on a user\x27s question, database context, and conversation history.\n\nFollow these rules STRICTLY:\n1. **Analyze the context first.** The context contains table schemas (DDL), documentation, and query examples. This is your ONLY source of truth for table/column names.\n2. **Consider conversation history.** If the user refers to previous queries or results (e.g., \"and how many were men?\" after asking about women), use the previous SQL as reference.\n3. **You MUST use the table and column names EXACTLY as provided in the context.** Do NOT invent or assume table or column names.\n4. **Handle contextual references intelligently.** If the user says \"the same but for X\", modify the previous query appropriately.\n5. **Do not add any explanation, comments, or markdown.** Your output must be ONLY the SQL query.\n\nExamples of contextual queries:\n- Previous: \"how many female users?\" → Current: \"and males?\" → Modify the previous query changing the gender condition\n- Previous: \"users created in 2024\" → Current: \"show me the first 10\" → Add LIMIT to previous query\n- Previous: \"count of forms\" → Current: \"which are the most used?\" → Change from COUNT to listing with ORDER BY\n"

/-- The note appended to the system prompt when the question is contextual
and history is present (vanna_service.py line 206). -/
def contextualImportantNote : String :=
  "\n\nIMPORTANT: The current question appears to be contextual. Pay special attention to the previous queries and modify them accordingly."

/-- The user prompt of `generate_sql` (vanna_service.py lines 208-216). -/
def sqlUserPrompt (db_context conversation_context question : String) : String :=
  "DATABASE CONTEXT:\n" ++ db_context ++ "\n" ++ conversation_context
  ++ "\n\nCURRENT USER QUESTION:\n" ++ question ++ "\n\nSQL QUERY:\n"

/-- The post-processing of the raw completion (vanna_service.py lines
229-232): strip, remove code fences, strip again. -/
def cleanSql (content : String) : String :=
  pyStrip (pyReplace (pyReplace (pyStrip content) "```sql" "") "```" "")

/-- The complete system prompt `generate_sql` sends: the base rules plus
the contextual note when the question is contextual and history is present
(vanna_service.py lines 189-206). -/
def sqlSystemPrompt (is_contextual : Bool)
    (conversation_history : List Interaction) : String :=
  sqlSystemPromptBase ++
    (if is_contextual ∧ conversation_history ≠ [] then contextualImportantNote
     else "")

/-- `LocalVannaService.generate_sql` (vanna_service.py lines 158-239).
`llm` maps the (system, user) prompts to the chat completion content, or
`Except.error` when the OpenAI call raises or the reply is malformed; the
surrounding try/except turns that error into `none`. -/
def generate_sql (hasCollection : Bool) (queryResult : Except String (List Hit))
    (llm : String → String → Except String String)
    (question : String) (conversation_history : List Interaction) : Option String :=
  let is_contextual := is_contextual_question question
  let db_context := get_relevant_context hasCollection queryResult
  let conversation_context := conversationContext is_contextual conversation_history
  let system_prompt := sqlSystemPrompt is_contextual conversation_history
  let user_prompt := sqlUserPrompt db_context conversation_context question
  match llm system_prompt user_prompt with
  | .error _ => none
  | .ok content => some (cleanSql content)

/-- The dict returned by `LocalVannaService.generate_prompt` on its success
path (vanna_service.py lines 455-460). -/
structure DebugPromptResult where
  success : Bool
  question : String
  context_retrieved : String
  full_prompt : String
deriving DecidableEq

/-- `LocalVannaService.generate_prompt` (vanna_service.py lines 437-463),
the debug endpoint: retrieves context exactly as `generate_sql` does and
assembles its own diagnostic prompt without calling the model.  Its body is
pure, so the except branch is unreachable. -/
def generate_prompt (hasCollection : Bool) (queryResult : Except String (List Hit))
    (question : String) : DebugPromptResult :=
  let context := get_relevant_context hasCollection queryResult
  let prompt :=
    "You are a SQL expert. Generate a SQL query for MySQL based on the following:\n            \nContext from database:\n"
    ++ context ++ "\n\nUser question: " ++ question
    ++ "\n\nReturn only the SQL query without any explanation."
  { success := true, question := question,
    context_retrieved := context, full_prompt := prompt }

/-- Python `str.upper()` under the same repertoire restriction as
`pyLowerChar` (`à`..`þ` map to `À`..`Þ`, the division sign `÷` excepted;
`ß` and `ÿ`, which Python uppercases specially, do not occur in this
service's inputs). -/
def pyUpperChar (c : Char) : Char :=
  if 97 ≤ c.toNat ∧ c.toNat ≤ 122 then Char.ofNat (c.toNat - 32)
  else if 0xE0 ≤ c.toNat ∧ c.toNat ≤ 0xFE ∧ c.toNat ≠ 0xF7 then Char.ofNat (c.toNat - 32)
  else c

/-- Python `str.upper()` on a whole string. -/
def pyUpper (s : String) : String :=
  String.mk (s.data.map pyUpperChar)

/-- Case-insensitive `startsWithList` (regex `re.IGNORECASE`). -/
def ciStartsWith (hay pat : List Char) : Bool :=
  startsWithList (hay.map pyLowerChar) (pat.map pyLowerChar)

/-- Brute-force matchability of `\s+FROM` (case-insensitive) at the start
of `w`: some nonempty whitespace run followed by `from`. -/
def matchWsThenFrom (w : List Char) : Bool :=
  (List.range w.length).any (fun k0 =>
    (w.take (k0 + 1)).all isPyWs && ciStartsWith (w.drop (k0 + 1)) "from".data)

/-- Matchability of `(.*?)\s+FROM` at the start of `v`: a newline-free
stretch (regex `.` does not cross newlines), then `\s+FROM`. -/
def matchMidThenFrom (v : List Char) : Bool :=
  (List.range (v.length + 1)).any (fun j =>
    (v.take j).all (fun c => c != '\n') && matchWsThenFrom (v.drop j))

/-- Matchability of `\s+(.*?)\s+FROM` at the start of `u`. -/
def matchAfterSelect (u : List Char) : Bool :=
  (List.range u.length).any (fun i0 =>
    (u.take (i0 + 1)).all isPyWs && matchMidThenFrom (u.drop (i0 + 1)))

/-- Whether Python `re.search(r"SELECT\s+(.*?)\s+FROM", sql, re.IGNORECASE)`
finds a match (vanna_service.py line 257): some suffix of `sql` starts with
`select` (case-insensitively) followed by `\s+(.*?)\s+FROM`.  Laziness and
greediness do not change matchability, so a brute-force split search is an
exact model of the boolean use made of the result. -/
def reSearchSelectFrom (sql : String) : Bool :=
  sql.data.tails.any (fun t =>
    ciStartsWith t "select".data && matchAfterSelect (t.drop 6))

/-- `row[0]` on a row (vanna_service.py lines 259-261): the head of a
positional row; `Except.error` models the IndexError on an empty tuple and
the KeyError on a dict indexed with `0`, both caught by the surrounding
try/except of `generate_summary`. -/
def rowFirst : Row → Except Unit Scalar
  | .tup (v :: _) => .ok v
  | .tup [] => .error ()
  | .dict _ => .error ()

/-- The positional-row relabelling of vanna_service.py lines 255-261,
applied when the first row to send is a tuple.  In the non-COUNT branch a
row of length one contributes its lone value, a longer tuple row is
embedded whole; a dict row met inside this positional branch is modelled as
the error case (in the source a single-field dict there raises KeyError;
mixed-shape result lists do not arise from a database cursor). -/
def normalizeTupleRows (sql : String) (results_to_send : List Row) :
    Except Unit (List Row) :=
  match results_to_send with
  | [] => .ok []
  | first :: _ =>
    match first with
    | .dict _ => .ok results_to_send
    | .tup _ =>
      if reSearchSelectFrom sql && containsSub (pyUpper sql) "COUNT" then
        results_to_send.mapM (fun row => do
          let v ← rowFirst row
          return Row.dict [("count", Value.sc v)])
      else
        results_to_send.mapM (fun row =>
          match row with
          | .tup [v] => .ok (Row.dict [("resultado", Value.sc v)])
          | .tup vs => .ok (Row.dict [("resultado", Value.tupV vs)])
          | .dict _ => .error ())

/-- The 150-character answer abbreviation of vanna_service.py lines 274-276. -/
def truncAnswer150 (answer : String) : String :=
  if answer.length > 150 then pyTake answer 150 ++ "..." else answer

/-- One turn of the summary's conversation excerpt (vanna_service.py lines
270-277): emitted only when both the question and the answer are truthy. -/
def summaryTurnText (interaction : Interaction) : String :=
  if interaction.question ≠ "" then
    match interaction.answer with
    | some a =>
        if a ≠ "" then
          "\n- Preguntaste: " ++ interaction.question
          ++ "\n  Respondí: " ++ truncAnswer150 a
        else ""
    | none => ""
  else ""

/-- The summary's conversation excerpt (vanna_service.py lines 266-277):
header plus the last three turns. -/
def summaryConvContext (conversation_history : List Interaction) : String :=
  if conversation_history.isEmpty then ""
  else
    "\n\nContexto de conversación previa:"
    ++ String.join
        ((conversation_history.drop (conversation_history.length - 3)).map
          summaryTurnText)

/-- The summariser's user prompt before the truncation note
(vanna_service.py lines 280-298). -/
def summaryPromptCore (question sql results_str conversation_context : String) :
    String :=
  "Eres un asistente amigable que ayuda a usuarios a entender datos de trámites digitales. \nTu tarea es explicar los resultados de una consulta de manera clara, natural y conversacional en español.\n\nContexto:\n- Pregunta actual del usuario: \"" ++ question
  ++ "\"\n- Consulta SQL ejecutada: " ++ sql
  ++ "\n- Resultados obtenidos: " ++ results_str
  ++ "\n" ++ conversation_context
  ++ "\n\nInstrucciones específicas:\n1. Responde de forma natural y conversacional, como si estuvieras hablando con un amigo\n2. Si la pregunta hace referencia a algo anterior (ej: \"¿y cuántos hombres?\" después de preguntar por mujeres), haz la conexión explícita\n3. Si es relevante, compara con resultados anteriores (ej: \"A diferencia de las 2,977 mujeres que mencioné antes, hay X hombres\")\n4. Para consultas de conteo, sé específico sobre qué estás contando\n5. Si hay fechas involucradas, menciónalas de forma natural\n6. Usa números con formato legible (2,977 en lugar de 2977)\n7. Si detectas que es una pregunta de seguimiento, relaciónala con la respuesta anterior\n\nGenera una respuesta natural y contextualizada:"

/-- The truncation note of vanna_service.py line 302
(`SUMMARY_RESULT_LIMIT` is 50). -/
def summaryTruncNote (total : Nat) : String :=
  "\n\nNota: La consulta encontró " ++ toString total
  ++ " resultados en total, pero estoy mostrando solo los primeros 50."

/-- The summariser's fixed system message (vanna_service.py line 310). -/
def summarySystemMsg : String :=
  "Eres un asistente conversacional con memoria que explica datos de manera amigable y natural. Siempre respondes en español de forma clara, contextualizada y recordando conversaciones previas cuando es relevante."

/-- The complete user prompt `generate_summary` sends to the model
(vanna_service.py lines 245-302): rows capped at the first 50, relabelled
when positional, stringified, embedded in the instruction text, and
followed by the truncation note exactly when the true row count exceeds 50.
`Except.error` is the row-relabelling exception path. -/
def summaryPrompt (question sql : String) (results : List Row)
    (conversation_history : List Interaction) : Except Unit String := do
  let results_to_send := results.take 50
  let normalized ← normalizeTupleRows sql results_to_send
  let results_str := pyReprRowList normalized
  let conversation_context := summaryConvContext conversation_history
  let prompt := summaryPromptCore question sql results_str conversation_context
  return if results.length > 50 then prompt ++ summaryTruncNote results.length
         else prompt

/-- The fixed no-results sentence of vanna_service.py line 249. -/
def noResultsMsg : String :=
  "No se encontraron resultados para tu consulta. Parece que no hay datos que coincidan con lo que buscas."

/-- The deterministic fallback of the except branch (vanna_service.py lines
325-336), a function of the rows and the SQL only. -/
def summaryFallback (sql : String) (results : List Row) : String :=
  match results with
  | [Row.tup [v]] =>
      if containsSub (pyLower sql) "count" then
        "Según los datos, hay " ++ v.pyStr ++ " registros que cumplen con tu consulta."
      else
        "El valor encontrado es: " ++ v.pyStr
  | [Row.dict [kv]] =>
      "Encontré que el resultado es: " ++ kv.2.pyStr
  | _ =>
      "Se encontraron " ++ toString results.length ++ " resultados para tu consulta."

/-- `LocalVannaService.generate_summary` (vanna_service.py lines 241-336).
An empty result list short-circuits to the fixed sentence before any model
call; otherwise the prompt is assembled and the model invoked, and any
exception on the way (relabelling error or model failure) lands in the
templated fallback. -/
def generate_summary (question sql : String) (results : List Row)
    (conversation_history : List Interaction)
    (llm : String → String → Except String String) : String :=
  if results.isEmpty then noResultsMsg
  else
    match summaryPrompt question sql results conversation_history with
    | .error _ => summaryFallback sql results
    | .ok prompt =>
      match llm summarySystemMsg prompt with
      | .ok content => pyStrip content
      | .error _ => summaryFallback sql results

/-- One stored fragment of the vector collection, as `get_all_training_data`
exposes it: id, document text, metadata pairs. -/
structure Frag where
  id : String
  document : String
  metadata : List (String × String)
deriving DecidableEq

/-- `LocalVannaService.train` (vanna_service.py lines 81-127).  The
collection is `none` when uninitialised, otherwise its fragment list;
`doc_id` is the fresh uuid of line 89; `addOk` is whether the index `add`
call succeeds (modelled from the spec, §6: `add(document_text, metadata,
id)` appends one fragment or raises leaving the index unchanged).  Note the
final `return True` is reached even when no keyword branch fired. -/
def train (collection : Option (List Frag)) (doc_id : String) (addOk : Bool)
    (ddl documentation question sql : Option String) :
    Option (List Frag) × Bool :=
  match collection with
  | none => (none, false)
  | some frags =>
    let addFrag := fun (f : Frag) =>
      if addOk then (some (frags ++ [f]), true) else (some frags, false)
    match ddl with
    | some d => addFrag ⟨doc_id, d, [("type", "ddl")]⟩
    | none =>
      match documentation with
      | some doc => addFrag ⟨doc_id, doc, [("type", "documentation")]⟩
      | none =>
        match question, sql with
        | some q, some s =>
            addFrag ⟨doc_id, "Question: " ++ q ++ "\nSQL: " ++ s,
              [("type", "question_sql"), ("question", q), ("sql", s)]⟩
        | _, _ => (some frags, true)

/-- `LocalVannaService.remove_training` (vanna_service.py lines 426-435).
`removeOk` is whether the index `delete` call succeeds (modelled from the
spec, §6: `delete(ids)` removes exactly the fragments whose id matches,
succeeding silently when none does, or raises leaving the index
unchanged). -/
def remove_training (collection : Option (List Frag)) (removeOk : Bool)
    (training_id : String) : Option (List Frag) × Bool :=
  match collection with
  | none => (none, false)
  | some frags =>
    if removeOk then
      (some (frags.filter (fun f => f.id != training_id)), true)
    else
      (some frags, false)

theorem startsWithList_self (l : List Char) : startsWithList l l = true := by
  induction l with
  | nil => rfl
  | cons c t ih => simp [startsWithList, ih]

theorem hasSub_append_left (a b : List Char) : hasSub (a ++ b) b = true := by
  induction a with
  | nil =>
    cases b with
    | nil => rfl
    | cons c t => simp [hasSub, startsWithList_self]
  | cons c t ih =>
    simp only [List.cons_append, hasSub, List.append_eq]
    rw [ih]
    simp

theorem strData_append (s t : String) : (s ++ t).data = s.data ++ t.data := by
  cases s; cases t; rfl

theorem strLength_mk (l : List Char) : (String.mk l).length = l.length := rfl

theorem containsSub_append_right (a b : String) : containsSub (a ++ b) b = true := by
  unfold containsSub
  rw [strData_append]
  exact hasSub_append_left a.data b.data

/-- C2: `is_contextual_question` returns true exactly when the lowercased
question contains one of the fixed markers as a substring; both casings of
"y cuántos hombres" are flagged and the marker-free
"¿Cuántos usuarios hay?" is not. -/
theorem is_contextual_question_iff_marker :
    (∀ question : String,
      is_contextual_question question = true ↔
        ∃ p ∈ contextual_patterns, containsSub (pyLower question) p = true)
    ∧ is_contextual_question "Y CUÁNTOS hombres" = true
    ∧ is_contextual_question "y cuántos hombres" = true
    ∧ is_contextual_question "¿Cuántos usuarios hay?" = false := by
  refine ⟨fun question => ?_, by decide, by decide, by decide⟩
  simp [is_contextual_question, List.any_eq_true]

/-- C5: on an empty results list `generate_summary` returns the fixed
no-results sentence for every question, SQL, history and model oracle, and
its outcome does not depend on the oracle at all: no model call is made. -/
theorem generate_summary_empty_no_model_call :
    ∀ (question sql : String) (hist : List Interaction)
      (llm llm2 : String → String → Except String String),
      generate_summary question sql [] hist llm = noResultsMsg
      ∧ generate_summary question sql [] hist llm
        = generate_summary question sql [] hist llm2 := by
  intro question sql hist llm llm2
  exact ⟨rfl, rfl⟩

/-- C8: `remove_training` is idempotent — a second call with the same id
changes nothing, an id matching no fragment leaves the store unchanged,
and every fragment with a different id survives; the call always returns
a boolean (the embedding is total, matching the try/except that converts
any index exception into `False`). -/
theorem remove_training_idempotent :
    ∀ (frags : List Frag) (ok : Bool) (tid : String),
      remove_training (remove_training (some frags) ok tid).1 ok tid
        = remove_training (some frags) ok tid
      ∧ ((∀ f ∈ frags, f.id ≠ tid) →
          (remove_training (some frags) ok tid).1 = some frags)
      ∧ ∀ f ∈ frags, f.id ≠ tid →
          ∃ frags', (remove_training (some frags) ok tid).1 = some frags'
            ∧ f ∈ frags' := by
  intro frags ok tid
  cases ok with
  | false =>
    refine ⟨rfl, fun _ => rfl, fun f hf _ => ⟨frags, rfl, hf⟩⟩
  | true =>
    refine ⟨?_, fun hall => ?_, fun f hf hne => ?_⟩
    · simp [remove_training, List.filter_filter]
    · have heq : (remove_training (some frags) true tid).1
          = some (frags.filter (fun f => f.id != tid)) := rfl
      have h2 : frags.filter (fun f => f.id != tid) = frags :=
        List.filter_eq_self.mpr (fun f hf => by simpa using hall f hf)
      rw [heq, h2]
    · refine ⟨frags.filter (fun f => f.id != tid), rfl, ?_⟩
      rw [List.mem_filter]
      exact ⟨hf, by simpa using hne⟩

/-- Witness for C8 at a concrete store: removing an id present in no
fragment returns the store unchanged. -/
theorem remove_training_idempotent_witness :
    (∀ f ∈ [(⟨"a", "CREATE TABLE users", [("type", "ddl")]⟩ : Frag)], f.id ≠ "b")
    ∧ (remove_training
        (some [(⟨"a", "CREATE TABLE users", [("type", "ddl")]⟩ : Frag)]) true "b").1
      = some [(⟨"a", "CREATE TABLE users", [("type", "ddl")]⟩ : Frag)] :=
  ⟨by decide,
   (remove_training_idempotent
      [(⟨"a", "CREATE TABLE users", [("type", "ddl")]⟩ : Frag)] true "b").2.1
     (by decide)⟩

/-- C1 (amended): whenever the language-model call fails — model
unreachable, malformed or empty completion, any exception from the client —
`generate_sql` returns `none` for every question, history and retrieval
outcome; the embedding is a total function, so no exception crosses the
boundary.  (A retrieval error, by contrast, is absorbed inside
`get_relevant_context` and does not by itself yield `none`; see the
counterexample.) -/
theorem generate_sql_model_failure_none :
    ∀ (hasCollection : Bool) (queryResult : Except String (List Hit))
      (err question : String) (hist : List Interaction),
      generate_sql hasCollection queryResult (fun _ _ => Except.error err)
        question hist = none := by
  intro hasCollection queryResult err question hist
  rfl

/-- C1 counterexample: with the vector query failing (a retrieval error)
but the model reachable, `generate_sql` does not return null — it degrades
to empty context and still produces the SQL, contradicting the claim that
a retrieval error is surfaced as a null result. -/
theorem generate_sql_retrieval_error_counterexample :
    generate_sql true (Except.error "index unavailable")
      (fun _ _ => Except.ok "SELECT COUNT(*) FROM users")
      "¿Cuántos usuarios hay?" []
      = some "SELECT COUNT(*) FROM users" := by
  decide

/-- C3: for a non-empty history the conversation window passed to the
prompt holds at most `history_limit` turns — 7 when the question is
contextual, 5 otherwise — and the rendered answer excerpt of any turn is
the original answer when it has at most 200 characters, and exactly the
first 200 characters plus "..." (203 characters in all) when longer. -/
theorem conversation_window_bounded :
    ∀ (is_ctx : Bool) (hist : List Interaction), hist ≠ [] →
      ((convWindow is_ctx hist).length ≤ history_limit is_ctx
        ∧ history_limit is_ctx = (if is_ctx then 7 else 5)
        ∧ ∀ a : String,
            ((truncAnswer a).length ≤ 203
             ∧ (200 < a.length →
                  truncAnswer a = pyTake a 200 ++ "..."
                  ∧ (pyTake a 200).length = 200)
             ∧ (a.length ≤ 200 → truncAnswer a = a))) := by
  intro is_ctx hist _
  refine ⟨?_, rfl, fun a => ?_⟩
  · simp only [convWindow, List.length_drop]
    omega
  · by_cases h : 200 < a.length
    · have hdata : a.length = a.data.length := rfl
      have htake : (pyTake a 200).length = 200 := by
        simp only [pyTake, strLength_mk, List.length_take]
        omega
      have heq : truncAnswer a = pyTake a 200 ++ "..." := by
        simp [truncAnswer, h]
      have hell : ("..." : String).length = 3 := rfl
      refine ⟨?_, fun _ => ⟨heq, htake⟩, fun hle => by omega⟩
      rw [heq, String.length_append, htake, hell]
    · have heq : truncAnswer a = a := by
        simp [truncAnswer, h]
      rw [heq]
      exact ⟨by omega, fun hgt => absurd hgt h, fun _ => rfl⟩

/-- Witness for C3 at a concrete one-turn history and a 201-character
answer: the window respects the limit and the excerpt is the 200-character
cut plus the ellipsis. -/
theorem conversation_window_bounded_witness :
    ([(⟨"q0", "s0", none⟩ : Interaction)] ≠ [])
    ∧ (convWindow false [(⟨"q0", "s0", none⟩ : Interaction)]).length
        ≤ history_limit false
    ∧ truncAnswer (String.mk (List.replicate 201 'x'))
        = pyTake (String.mk (List.replicate 201 'x')) 200 ++ "..." :=
  ⟨by decide,
   (conversation_window_bounded false [⟨"q0", "s0", none⟩] (by decide)).1,
   ((conversation_window_bounded false [⟨"q0", "s0", none⟩] (by decide)).2.2
      (String.mk (List.replicate 201 'x'))).2.1
      (by simp only [strLength_mk, List.length_replicate]; omega) |>.1⟩

/-- The specification's human-readable label for each fragment kind
(spec §4.2): "Table Schema:" for schema/DDL, "Documentation:" for
documentation, "Example:" for question-SQL examples. -/
def specKindLabel (kind : String) : String :=
  if kind = "ddl" then "Table Schema:"
  else if kind = "documentation" then "Documentation:"
  else "Example:"

theorem labeledParts_eq_map (hits : List Hit)
    (hk : ∀ h ∈ hits, h.mtype = "ddl" ∨ h.mtype = "documentation"
            ∨ h.mtype = "question_sql") :
    hits.filterMap (fun h =>
      if h.mtype = "ddl" then some ("Table Schema:\n" ++ h.document)
      else if h.mtype = "documentation" then some ("Documentation:\n" ++ h.document)
      else if h.mtype = "question_sql" then some ("Example:\n" ++ h.document)
      else none)
    = hits.map (fun h => specKindLabel h.mtype ++ "\n" ++ h.document) := by
  induction hits with
  | nil => rfl
  | cons h t ih =>
    have hh := hk h (by simp)
    have ht : ∀ x ∈ t, x.mtype = "ddl" ∨ x.mtype = "documentation"
        ∨ x.mtype = "question_sql" :=
      fun x hx => hk x (by simp [hx])
    rcases hh with h1 | h1 | h1 <;>
      simp [List.filterMap_cons, ih ht, h1, specKindLabel]

/-- C4: context retrieval prefixes every returned fragment's content with
the label the spec assigns to its kind, joins the labelled fragments with
blank-line separators in rank order, and degrades to the empty string —
without raising — when the store is uninitialised, the query fails, or no
fragment matches. -/
theorem get_relevant_context_labels_and_degrades :
    (∀ q : Except String (List Hit), get_relevant_context false q = "")
    ∧ (∀ e : String, get_relevant_context true (Except.error e) = "")
    ∧ get_relevant_context true (Except.ok []) = ""
    ∧ ∀ hits : List Hit,
        (∀ h ∈ hits, h.mtype = "ddl" ∨ h.mtype = "documentation"
            ∨ h.mtype = "question_sql") →
        get_relevant_context true (Except.ok hits)
          = String.intercalate "\n\n"
              (hits.map fun h => specKindLabel h.mtype ++ "\n" ++ h.document) := by
  refine ⟨fun q => rfl, fun e => rfl, rfl, fun hits hk => ?_⟩
  simp only [get_relevant_context, Bool.not_true, Bool.false_eq_true, if_false]
  rw [labeledParts_eq_map hits hk]

/-- Witness for C4 at a three-fragment query result covering all kinds. -/
theorem get_relevant_context_labels_witness :
    (∀ h ∈ [(⟨"CREATE TABLE users (id INT)", "ddl"⟩ : Hit),
            ⟨"Los usuarios viven en la tabla users", "documentation"⟩,
            ⟨"Question: ¿Cuántos usuarios hay?\nSQL: SELECT COUNT(*) FROM users", "question_sql"⟩],
        h.mtype = "ddl" ∨ h.mtype = "documentation" ∨ h.mtype = "question_sql")
    ∧ get_relevant_context true
        (Except.ok [(⟨"CREATE TABLE users (id INT)", "ddl"⟩ : Hit),
            ⟨"Los usuarios viven en la tabla users", "documentation"⟩,
            ⟨"Question: ¿Cuántos usuarios hay?\nSQL: SELECT COUNT(*) FROM users", "question_sql"⟩])
      = String.intercalate "\n\n"
          ([(⟨"CREATE TABLE users (id INT)", "ddl"⟩ : Hit),
            ⟨"Los usuarios viven en la tabla users", "documentation"⟩,
            ⟨"Question: ¿Cuántos usuarios hay?\nSQL: SELECT COUNT(*) FROM users", "question_sql"⟩].map
            fun h => specKindLabel h.mtype ++ "\n" ++ h.document) :=
  ⟨by decide,
   (get_relevant_context_labels_and_degrades).2.2.2 _ (by decide)⟩

theorem strLength_append_left_pos (s t : String) (h : 0 < s.length) :
    0 < (s ++ t).length := by
  rw [String.length_append]
  omega

theorem summaryFallback_ne_empty (sql : String) (results : List Row) :
    summaryFallback sql results ≠ "" := by
  have hlen : 0 < (summaryFallback sql results).length := by
    unfold summaryFallback
    split
    · split
      · exact strLength_append_left_pos _ _
          (strLength_append_left_pos _ _ (by decide))
      · exact strLength_append_left_pos _ _ (by decide)
    · exact strLength_append_left_pos _ _ (by decide)
    · exact strLength_append_left_pos _ _
        (strLength_append_left_pos _ _ (by decide))
  intro h
  rw [h] at hlen
  exact absurd hlen (by decide)

/-- C6: the user prompt `generate_summary` assembles is determined by the
first 50 rows together with the total row count — rows beyond the cap
never reach the model; when the total exceeds 50 the prompt is the core
prompt built from the first 50 rows followed by the note disclosing the
true total and the cap, and when the total is at most 50 the prompt is the
bare core prompt with no note. -/
theorem summary_prompt_caps_rows_and_notes :
    ∀ (question sql : String) (results results2 : List Row)
      (hist : List Interaction),
      (results.take 50 = results2.take 50 → results.length = results2.length →
        summaryPrompt question sql results hist
          = summaryPrompt question sql results2 hist)
      ∧ (50 < results.length →
          summaryPrompt question sql results hist
            = (normalizeTupleRows sql (results.take 50)).map
                (fun rows => summaryPromptCore question sql (pyReprRowList rows)
                    (summaryConvContext hist)
                  ++ summaryTruncNote results.length))
      ∧ (results.length ≤ 50 →
          summaryPrompt question sql results hist
            = (normalizeTupleRows sql results).map
                (fun rows => summaryPromptCore question sql (pyReprRowList rows)
                    (summaryConvContext hist))) := by
  intro question sql results results2 hist
  refine ⟨fun h1 h2 => ?_, fun hgt => ?_, fun hle => ?_⟩
  · simp only [summaryPrompt, h1, h2]
  · cases hnorm : normalizeTupleRows sql (results.take 50) with
    | error e => simp [summaryPrompt, hnorm, Except.map]
    | ok rows => simp [summaryPrompt, hnorm, Except.map, hgt]
  · have htk : results.take 50 = results := List.take_of_length_le hle
    cases hnorm : normalizeTupleRows sql results with
    | error e => simp [summaryPrompt, htk, hnorm, Except.map]
    | ok rows =>
      simp [summaryPrompt, htk, hnorm, Except.map, Nat.not_lt.mpr hle]

/-- Witness for C6: 120 identical rows — the prompt is built from the
first 50 and carries the note naming the true total of 120. -/
theorem summary_prompt_caps_witness :
    50 < (List.replicate 120 (Row.dict [("count", Value.sc (Scalar.intV 1))])).length
    ∧ summaryPrompt "¿Cuántos usuarios hay?" "SELECT COUNT(*) FROM users"
        (List.replicate 120 (Row.dict [("count", Value.sc (Scalar.intV 1))])) []
      = (normalizeTupleRows "SELECT COUNT(*) FROM users"
            ((List.replicate 120 (Row.dict [("count", Value.sc (Scalar.intV 1))])).take 50)).map
          (fun rows => summaryPromptCore "¿Cuántos usuarios hay?"
              "SELECT COUNT(*) FROM users" (pyReprRowList rows)
              (summaryConvContext [])
            ++ summaryTruncNote
                (List.replicate 120 (Row.dict [("count", Value.sc (Scalar.intV 1))])).length) :=
  ⟨by simp, (summary_prompt_caps_rows_and_notes "¿Cuántos usuarios hay?"
      "SELECT COUNT(*) FROM users"
      (List.replicate 120 (Row.dict [("count", Value.sc (Scalar.intV 1))])) [] []).2.1
      (by simp)⟩

/-- C7: when the model call fails, `generate_summary` on any non-empty
result list returns the deterministic template `summaryFallback sql
results`, which depends only on the rows and the SQL (the same output for
any question and history), is never the empty string, and for exactly one
single-field mapping row is a sentence containing that field's value. -/
theorem generate_summary_fallback_on_failure :
    ∀ (question question2 sql : String) (results : List Row)
      (hist hist2 : List Interaction) (err err2 : String),
      results ≠ [] →
      (generate_summary question sql results hist (fun _ _ => Except.error err)
          = summaryFallback sql results
        ∧ generate_summary question sql results hist (fun _ _ => Except.error err)
            = generate_summary question2 sql results hist2
                (fun _ _ => Except.error err2)
        ∧ summaryFallback sql results ≠ ""
        ∧ ∀ k v, results = [Row.dict [(k, v)]] →
            summaryFallback sql results
                = "Encontré que el resultado es: " ++ v.pyStr
              ∧ containsSub (summaryFallback sql results) v.pyStr = true) := by
  intro question question2 sql results hist hist2 err err2 hne
  have hfb : ∀ (qq : String) (hh : List Interaction) (ee : String),
      generate_summary qq sql results hh (fun _ _ => Except.error ee)
        = summaryFallback sql results := by
    intro qq hh ee
    cases results with
    | nil => exact absurd rfl hne
    | cons r rs =>
      cases hsp : summaryPrompt qq sql (r :: rs) hh with
      | error e => simp [generate_summary, hsp]
      | ok p => simp [generate_summary, hsp]
  refine ⟨hfb question hist err,
    (hfb question hist err).trans (hfb question2 hist2 err2).symm,
    summaryFallback_ne_empty sql results,
    fun k v hres => ?_⟩
  subst hres
  exact ⟨rfl, containsSub_append_right "Encontré que el resultado es: " v.pyStr⟩

/-- Witness for C7: one single-field row on a failing model — the answer
is the fallback template and it contains the field's value 42. -/
theorem generate_summary_fallback_witness :
    ([Row.dict [("total", Value.sc (Scalar.intV 42))]] ≠ ([] : List Row))
    ∧ generate_summary "¿Cuál es el total?" "SELECT SUM(total) FROM t"
        [Row.dict [("total", Value.sc (Scalar.intV 42))]] []
        (fun _ _ => Except.error "model down")
      = summaryFallback "SELECT SUM(total) FROM t"
          [Row.dict [("total", Value.sc (Scalar.intV 42))]]
    ∧ containsSub
        (summaryFallback "SELECT SUM(total) FROM t"
          [Row.dict [("total", Value.sc (Scalar.intV 42))]])
        (Value.sc (Scalar.intV 42)).pyStr = true :=
  ⟨by simp,
   (generate_summary_fallback_on_failure "¿Cuál es el total?" "q2"
      "SELECT SUM(total) FROM t" [Row.dict [("total", Value.sc (Scalar.intV 42))]] [] []
      "model down" "e2" (by simp)).1,
   ((generate_summary_fallback_on_failure "¿Cuál es el total?" "q2"
      "SELECT SUM(total) FROM t" [Row.dict [("total", Value.sc (Scalar.intV 42))]] [] []
      "model down" "e2" (by simp)).2.2.2 "total" (Value.sc (Scalar.intV 42)) rfl).2⟩

/-- C9 (amended): the debug endpoint performs the same retrieval as
`generate_sql` — its `context_retrieved` is `get_relevant_context` on the
same store state and query outcome — and takes no model oracle at all, so
it cannot call the model; it returns that context together with its own
fixed diagnostic prompt.  That prompt is not the prompt text
`generate_sql` sends for the same question (see the counterexample). -/
theorem generate_prompt_debug_retrieval :
    ∀ (hasCollection : Bool) (qr : Except String (List Hit))
      (question : String),
      (generate_prompt hasCollection qr question).context_retrieved
        = get_relevant_context hasCollection qr
      ∧ (generate_prompt hasCollection qr question).success = true
      ∧ (generate_prompt hasCollection qr question).question = question := by
  intro hasCollection qr question
  exact ⟨rfl, rfl, rfl⟩

/-- C9 counterexample: at question "test" with an empty store and history,
the debug endpoint's `full_prompt` differs from the system prompt, from
the user prompt, and from the concatenation of the two that `generate_sql`
would send to the model for that question. -/
theorem generate_prompt_counterexample :
    (generate_prompt true (Except.ok []) "test").full_prompt
        ≠ sqlSystemPrompt (is_contextual_question "test") []
    ∧ (generate_prompt true (Except.ok []) "test").full_prompt
        ≠ sqlUserPrompt (get_relevant_context true (Except.ok []))
            (conversationContext (is_contextual_question "test") []) "test"
    ∧ (generate_prompt true (Except.ok []) "test").full_prompt
        ≠ sqlSystemPrompt (is_contextual_question "test") []
          ++ sqlUserPrompt (get_relevant_context true (Except.ok []))
              (conversationContext (is_contextual_question "test") []) "test" :=
  ⟨by decide, by decide, by decide⟩

/-- C10: with none of the recognised training shapes supplied (no ddl, no
documentation, not both question and sql), `train` on an initialised
collection returns `true` yet adds nothing, so a `true` result does not
imply ingestion. -/
theorem train_true_without_ingestion :
    ∀ (frags : List Frag) (doc_id : String) (addOk : Bool)
      (question sql : Option String),
      ¬(question.isSome ∧ sql.isSome) →
      train (some frags) doc_id addOk none none question sql
        = (some frags, true) := by
  intro frags doc_id addOk question sql h
  cases question with
  | none => cases sql <;> rfl
  | some q =>
    cases sql with
    | none => rfl
    | some s => exact absurd ⟨rfl, rfl⟩ h

/-- Witness for C10: `train` with only a question keyword reports success
on an empty collection while storing nothing. -/
theorem train_true_without_ingestion_witness :
    ¬((some "¿Cuántos usuarios hay?" : Option String).isSome
        ∧ (none : Option String).isSome)
    ∧ train (some ([] : List Frag)) "id-1" true none none
        (some "¿Cuántos usuarios hay?") none = (some [], true) :=
  ⟨by decide,
   train_true_without_ingestion [] "id-1" true (some "¿Cuántos usuarios hay?") none
     (by decide)⟩
